import Mathlib

/-!
Shallow embedding of the watershaper repository (two Python variants:
`infil.py` and `watershaperversiontest21.11.2024.py`) over the reals.
Pure geometry functions become Lean functions on ℝ; the division-by-zero
behaviour of Python float division is made explicit with `Except`.
-/

noncomputable section

/-- `ellipsoid_surface_area_one_side` from `infil.py` (lines 5-9):
approximate curved surface area of one side of a half-ellipsoid,
`2π(((ab)^p + (ac)^p + (bc)^p)/3)^(1/p)` with `p = 1.6075`. -/
def Infil.ellipsoid_surface_area_one_side (a b c : ℝ) : ℝ :=
  let p : ℝ := 1.6075
  2 * Real.pi * (((a * b) ^ p + (a * c) ^ p + (b * c) ^ p) / 3) ^ (1 / p)

/-- `ellipsoid_volume` from `infil.py` (lines 11-13): `(2/3)·π·a·b·c`. -/
def Infil.ellipsoid_volume (a b c : ℝ) : ℝ :=
  (2 / 3) * Real.pi * (a * b * c)

/-- `ellipsoid_surface_area_one_side` from
`watershaperversiontest21.11.2024.py` (lines 6-10). -/
def Watershaper.ellipsoid_surface_area_one_side (a b c : ℝ) : ℝ :=
  let p : ℝ := 1.6075
  2 * Real.pi * (((a * b) ^ p + (a * c) ^ p + (b * c) ^ p) / 3) ^ (1 / p)

/-- `ellipsoid_volume` from `watershaperversiontest21.11.2024.py`
(lines 12-14). -/
def Watershaper.ellipsoid_volume (a b c : ℝ) : ℝ :=
  (2 / 3) * Real.pi * (a * b * c)

/-- `objective` from `infil.py` (lines 15-29), Policy A: starts from zero
penalty, adds the squared surface-area shortfall when below the minimum,
adds the squared volume shortfall when below the minimum, and returns
`penalty + a + b`. -/
def Infil.objective (a b min_surface_area min_volume c : ℝ) : ℝ :=
  let surface_area := Infil.ellipsoid_surface_area_one_side a b c
  let volume := Infil.ellipsoid_volume a b c
  let penalty : ℝ := 0
  let penalty := if surface_area < min_surface_area then
    penalty + (min_surface_area - surface_area) ^ 2 else penalty
  let penalty := if volume < min_volume then
    penalty + (min_volume - volume) ^ 2 else penalty
  penalty + a + b

/-- The Policy A penalty as the spec words it: the sum of the squared
shortfalls `(minSurfaceArea − computedSurfaceArea)²` and
`(minVolume − computedVolume)²`, each term included only when the computed
quantity is below the minimum, else zero. Written from the spec for
comparison with `Infil.objective`. -/
def policyA_penalty_spec (a b min_surface_area min_volume c : ℝ) : ℝ :=
  (if Infil.ellipsoid_surface_area_one_side a b c < min_surface_area then
    (min_surface_area - Infil.ellipsoid_surface_area_one_side a b c) ^ 2 else 0)
  + (if Infil.ellipsoid_volume a b c < min_volume then
    (min_volume - Infil.ellipsoid_volume a b c) ^ 2 else 0)

/-- Optimization box for `a, b` in `infil.py` (line 41):
`bounds=[(0.1, 5), (0.1, 5)]`. -/
def Infil.bounds : List (ℝ × ℝ) := [(0.1, 5), (0.1, 5)]

/-- Optimization box for `a, b` in `watershaperversiontest21.11.2024.py`
(line 39): `bounds = [(0.1, 100), (0.1, 100)]`. -/
def Watershaper.bounds : List (ℝ × ℝ) := [(0.1, 100), (0.1, 100)]

/-- `base_width` local of `calculate_infiltration_ditch` (line 66):
half the top width. -/
def Watershaper.base_width (width : ℝ) : ℝ := width * 0.5

/-- `slant_height` local of `calculate_infiltration_ditch` (line 67):
`sqrt((width − baseWidth)²/4 + depth²)`. -/
def Watershaper.slant_height (width depth : ℝ) : ℝ :=
  Real.sqrt ((width - Watershaper.base_width width) ^ 2 / 4 + depth ^ 2)

/-- Inner `calculate_surface_area` of `calculate_infiltration_ditch`
(lines 70-74): returns twice one slanted wall area,
`2 · slantHeight · length`. -/
def Watershaper.calculate_surface_area (width depth length : ℝ) : ℝ :=
  2 * (Watershaper.slant_height width depth * length)

/-- Initial length of `calculate_infiltration_ditch` (line 63):
`min_volume / ((width·0.5 + width)/2 · depth)`. -/
def Watershaper.initial_length (width depth min_volume : ℝ) : ℝ :=
  min_volume / ((width * 0.5 + width) / 2 * depth)

/-- Python float division raises `ZeroDivisionError` on a zero denominator;
the embedding surfaces that as an explicit error value. -/
inductive PyExn : Type
  | zeroDivisionError
  deriving DecidableEq

/-- Final `(volume, surface_area, length)` triple returned by
`calculate_infiltration_ditch` (lines 85-90) at a given length. -/
def Watershaper.ditch_result (width depth length : ℝ) : Except PyExn (ℝ × ℝ × ℝ) :=
  Except.ok ((Watershaper.base_width width + width) / 2 * depth * length,
    Watershaper.calculate_surface_area width depth length, length)

/-- `calculate_infiltration_ditch` from `watershaperversiontest21.11.2024.py`
(lines 57-90). The two `if _ = 0` checks make Python's implicit
`ZeroDivisionError` on lines 63 and 82 explicit; otherwise the control flow
mirrors the source: compute the volume-driven initial length, and scale it by
`min_surface_area / current_surface_area` exactly when the realized surface
area falls short. `roof_area` is accepted and never used, as in the source. -/
def Watershaper.calculate_infiltration_ditch
    (width depth min_volume min_surface_area roof_area : ℝ) :
    Except PyExn (ℝ × ℝ × ℝ) :=
  if (width * 0.5 + width) / 2 * depth = 0 then
    Except.error PyExn.zeroDivisionError
  else if Watershaper.calculate_surface_area width depth
      (Watershaper.initial_length width depth min_volume) < min_surface_area then
    if Watershaper.calculate_surface_area width depth
        (Watershaper.initial_length width depth min_volume) = 0 then
      Except.error PyExn.zeroDivisionError
    else
      Watershaper.ditch_result width depth
        (Watershaper.initial_length width depth min_volume *
          (min_surface_area / Watershaper.calculate_surface_area width depth
            (Watershaper.initial_length width depth min_volume)))
  else
    Watershaper.ditch_result width depth
      (Watershaper.initial_length width depth min_volume)

/-- Tank-tier lookup of the watershaper script (lines 143-151), modelled as
the recommended capacity in liters. -/
def Watershaper.rainwell_size (roof : ℝ) : ℝ :=
  if roof < 80 then 5000
  else if roof < 120 then 7500
  else if roof < 200 then 10000
  else roof * 100

/-- Top-level derivation of the watershaper script (lines 129-151), in source
order: `min_volume` and `min_surface_area` are computed from
`roof_square_meters` first (lines 130-131), the 30 m² rainwell offset is
subtracted afterwards (lines 134-135), and the tank-tier lookup then reads
the adjusted value. Returns
`(min_volume, min_surface_area, adjusted roof, tank tier)`. -/
def Watershaper.script_requirements (roof_square_meters : ℝ) (has_rainwell : Bool) :
    ℝ × ℝ × ℝ × ℝ :=
  let min_volume := roof_square_meters * 33 / 1000
  let min_surface_area := roof_square_meters * 0.08
  let roof2 := if has_rainwell then roof_square_meters - 30 else roof_square_meters
  (min_volume, min_surface_area, roof2, Watershaper.rainwell_size roof2)

end

/-- Helper: the half-ellipsoid surface-area formula depends on its three
arguments only through the symmetric sum of the `p`-th powers of the
pairwise products, so an equality of those sums gives an equality of areas. -/
theorem Infil.sa_eq_of_sum_eq (a b c x y z : ℝ)
    (h : (a * b) ^ (1.6075 : ℝ) + (a * c) ^ (1.6075 : ℝ) + (b * c) ^ (1.6075 : ℝ)
       = (x * y) ^ (1.6075 : ℝ) + (x * z) ^ (1.6075 : ℝ) + (y * z) ^ (1.6075 : ℝ)) :
    Infil.ellipsoid_surface_area_one_side a b c
      = Infil.ellipsoid_surface_area_one_side x y z := by
  simp only [Infil.ellipsoid_surface_area_one_side]
  rw [h]

/-- Claim C8: `ellipsoid_surface_area_one_side` is invariant under every
permutation of its three arguments, in both repository variants (here stated
for all reals, which subsumes the positive case). -/
theorem ellipsoid_surface_area_perm_invariant (a b c : ℝ) :
    (Infil.ellipsoid_surface_area_one_side a b c
        = Infil.ellipsoid_surface_area_one_side a c b
      ∧ Infil.ellipsoid_surface_area_one_side a b c
        = Infil.ellipsoid_surface_area_one_side b a c
      ∧ Infil.ellipsoid_surface_area_one_side a b c
        = Infil.ellipsoid_surface_area_one_side b c a
      ∧ Infil.ellipsoid_surface_area_one_side a b c
        = Infil.ellipsoid_surface_area_one_side c a b
      ∧ Infil.ellipsoid_surface_area_one_side a b c
        = Infil.ellipsoid_surface_area_one_side c b a)
    ∧ (Watershaper.ellipsoid_surface_area_one_side a b c
        = Watershaper.ellipsoid_surface_area_one_side a c b
      ∧ Watershaper.ellipsoid_surface_area_one_side a b c
        = Watershaper.ellipsoid_surface_area_one_side b a c
      ∧ Watershaper.ellipsoid_surface_area_one_side a b c
        = Watershaper.ellipsoid_surface_area_one_side b c a
      ∧ Watershaper.ellipsoid_surface_area_one_side a b c
        = Watershaper.ellipsoid_surface_area_one_side c a b
      ∧ Watershaper.ellipsoid_surface_area_one_side a b c
        = Watershaper.ellipsoid_surface_area_one_side c b a) := by
  have h1 := Infil.sa_eq_of_sum_eq a b c a c b (by rw [mul_comm c b]; ring)
  have h2 := Infil.sa_eq_of_sum_eq a b c b a c (by rw [mul_comm b a, mul_comm b c]; ring)
  have h3 := Infil.sa_eq_of_sum_eq a b c b c a
    (by rw [mul_comm b a, mul_comm b c, mul_comm c a]; ring)
  have h4 := Infil.sa_eq_of_sum_eq a b c c a b
    (by rw [mul_comm c a, mul_comm c b]; ring)
  have h5 := Infil.sa_eq_of_sum_eq a b c c b a
    (by rw [mul_comm c b, mul_comm c a, mul_comm b a]; ring)
  exact ⟨⟨h1, h2, h3, h4, h5⟩, ⟨h1, h2, h3, h4, h5⟩⟩

/-- Claim C10: the geometry functions of the two repository variants are
extensionally equal: both `ellipsoid_surface_area_one_side` and
`ellipsoid_volume` agree between `infil.py` and the watershaper variant. -/
theorem geometry_variants_agree (a b c : ℝ) :
    Infil.ellipsoid_surface_area_one_side a b c
      = Watershaper.ellipsoid_surface_area_one_side a b c
    ∧ Infil.ellipsoid_volume a b c = Watershaper.ellipsoid_volume a b c :=
  ⟨rfl, rfl⟩

/-- Claim C5: the Policy A objective equals `penalty(a,b) + a + b`, where the
penalty is the sum of the squared shortfalls, each term present exactly when
the computed quantity is below its minimum and zero otherwise. -/
theorem policyA_objective_eq_penalty_plus_footprint
    (a b min_surface_area min_volume c : ℝ) :
    Infil.objective a b min_surface_area min_volume c
      = policyA_penalty_spec a b min_surface_area min_volume c + a + b := by
  simp only [Infil.objective, policyA_penalty_spec]
  split_ifs <;> ring

/-- Claim C9: `calculate_infiltration_ditch` does not depend on its
`roof_area` argument: two calls differing only in `roof_area` return the
same outcome. -/
theorem ditch_ignores_roof_area
    (width depth min_volume min_surface_area ra1 ra2 : ℝ) :
    Watershaper.calculate_infiltration_ditch width depth min_volume min_surface_area ra1
      = Watershaper.calculate_infiltration_ditch width depth min_volume min_surface_area ra2 :=
  rfl

/-- Claim C6, counterexample: Policy A's box in `infil.py` has upper bound 5,
not an upper bound of (at least) 100 distance units as the claim asserts for
both policies. -/
theorem policyA_upper_bound_is_five :
    Infil.bounds = [((0.1 : ℝ), 5), (0.1, 5)] ∧ ¬ (100 : ℝ) ≤ 5 :=
  ⟨rfl, by norm_num⟩

/-- Claim C6 (amended): both policies search a bounded box with strictly
positive lower bound 0.1 for each semi-axis; Policy B's upper bound is 100
while Policy A's is 5; every point of either box has both coordinates at
least 0.1. -/
theorem solver_bounds_boxes :
    Infil.bounds = [((0.1 : ℝ), 5), (0.1, 5)]
    ∧ Watershaper.bounds = [((0.1 : ℝ), 100), (0.1, 100)]
    ∧ (∀ p ∈ Infil.bounds, (0 : ℝ) < p.1 ∧ (0.1 : ℝ) ≤ p.1)
    ∧ (∀ p ∈ Watershaper.bounds, (0 : ℝ) < p.1 ∧ (0.1 : ℝ) ≤ p.1) := by
  refine ⟨rfl, rfl, ?_, ?_⟩ <;>
  · intro p hp
    simp only [Infil.bounds, Watershaper.bounds, List.mem_cons,
      List.mem_singleton, List.not_mem_nil, or_false] at hp
    rcases hp with h | h <;> · subst h; norm_num

/-- Witness for `solver_bounds_boxes` at the concrete box corner `(0.1, 5)`
of Policy A. -/
theorem solver_bounds_boxes_witness :
    ((0.1 : ℝ), (5 : ℝ)) ∈ Infil.bounds
    ∧ ((0 : ℝ) < ((0.1 : ℝ), (5 : ℝ)).1 ∧ (0.1 : ℝ) ≤ ((0.1 : ℝ), (5 : ℝ)).1) :=
  ⟨by simp [Infil.bounds], solver_bounds_boxes.2.2.1 (0.1, 5) (by simp [Infil.bounds])⟩

/-- Claim C7, counterexample: with `roofArea = 50` and the rainwell flag set,
the script derives `min_volume = 50·33/1000 = 1.65` from the unadjusted roof
area, while the claim demands `(50 − 30)·33/1000 = 0.66`. -/
theorem rainwell_offset_not_before_requirements :
    (Watershaper.script_requirements 50 true).1 = 1.65
    ∧ ((50 : ℝ) - 30) * 33 / 1000 = 0.66
    ∧ (1.65 : ℝ) ≠ 0.66 := by
  refine ⟨?_, by norm_num, by norm_num⟩
  simp only [Watershaper.script_requirements]
  norm_num

/-- Claim C7 (amended): the 30-unit rainwell offset is applied only after
`min_volume` and `min_surface_area` are derived, so those use the unadjusted
roof area (`roofArea·33/1000` and `roofArea·0.08`), while the tank-tier
lookup does read the adjusted value `roofArea − 30`. -/
theorem rainwell_offset_after_requirements (roof : ℝ) :
    Watershaper.script_requirements roof true
      = (roof * 33 / 1000, roof * 0.08, roof - 30,
          Watershaper.rainwell_size (roof - 30))
    ∧ Watershaper.script_requirements roof false
      = (roof * 33 / 1000, roof * 0.08, roof, Watershaper.rainwell_size roof) :=
  ⟨rfl, rfl⟩

/-- Helper: the volume denominator `((width·0.5 + width)/2)·depth` of the
ditch solver is positive for positive width and depth. -/
theorem Watershaper.denom_pos (width depth : ℝ) (hw : 0 < width) (hd : 0 < depth) :
    0 < (width * 0.5 + width) / 2 * depth := by
  nlinarith [mul_pos hw hd]

/-- Helper: the slant height is positive whenever the depth is. -/
theorem Watershaper.slant_height_pos (width depth : ℝ) (hd : 0 < depth) :
    0 < Watershaper.slant_height width depth := by
  rw [Watershaper.slant_height]
  apply Real.sqrt_pos.mpr
  have h2 : 0 < depth ^ 2 := pow_pos hd 2
  have h3 : 0 ≤ (width - Watershaper.base_width width) ^ 2 / 4 := by positivity
  linarith

/-- Helper: the realized ditch surface area is positive at a positive
length (for positive depth). -/
theorem Watershaper.csa_pos (width depth length : ℝ)
    (hd : 0 < depth) (hl : 0 < length) :
    0 < Watershaper.calculate_surface_area width depth length := by
  rw [Watershaper.calculate_surface_area]
  exact mul_pos (by norm_num)
    (mul_pos (Watershaper.slant_height_pos width depth hd) hl)

/-- Claim C2: for positive width, depth, minimum volume and minimum surface
area, the ditch solver succeeds, its realized surface area meets the minimum,
its returned volume is exactly `((baseWidth + width)/2)·depth·length` at the
returned length, and the returned length is either the volume-driven initial
length or that length scaled once by
`minSurfaceArea / realizedSurfaceArea`. -/
theorem ditch_correction_meets_minimum
    (width depth min_volume min_surface_area roof_area : ℝ)
    (hw : 0 < width) (hd : 0 < depth)
    (hv : 0 < min_volume) (hs : 0 < min_surface_area) :
    ∃ v sa l,
      Watershaper.calculate_infiltration_ditch width depth min_volume
          min_surface_area roof_area = Except.ok (v, sa, l)
      ∧ min_surface_area ≤ sa
      ∧ v = (Watershaper.base_width width + width) / 2 * depth * l
      ∧ (l = Watershaper.initial_length width depth min_volume
        ∨ l = Watershaper.initial_length width depth min_volume *
            (min_surface_area / Watershaper.calculate_surface_area width depth
              (Watershaper.initial_length width depth min_volume))) := by
  have hden := Watershaper.denom_pos width depth hw hd
  have hl0 : 0 < Watershaper.initial_length width depth min_volume := by
    rw [Watershaper.initial_length]
    exact div_pos hv hden
  have hcur := Watershaper.csa_pos width depth _ hd hl0
  simp only [Watershaper.calculate_infiltration_ditch]
  rw [if_neg (ne_of_gt hden)]
  by_cases hlt : Watershaper.calculate_surface_area width depth
      (Watershaper.initial_length width depth min_volume) < min_surface_area
  · rw [if_pos hlt, if_neg (ne_of_gt hcur)]
    simp only [Watershaper.ditch_result]
    refine ⟨_, _, _, rfl, ?_, rfl, Or.inr rfl⟩
    have hsa : Watershaper.calculate_surface_area width depth
        (Watershaper.initial_length width depth min_volume *
          (min_surface_area / Watershaper.calculate_surface_area width depth
            (Watershaper.initial_length width depth min_volume)))
        = min_surface_area := by
      simp only [Watershaper.calculate_surface_area] at hcur ⊢
      field_simp
      ring
    exact hsa.ge
  · rw [if_neg hlt]
    simp only [Watershaper.ditch_result]
    exact ⟨_, _, _, rfl, le_of_not_lt hlt, rfl, Or.inl rfl⟩

/-- Witness for `ditch_correction_meets_minimum` at the spec's test point
`width = 1.5, depth = 0.5, minVolume = 1.65, minSurfaceArea = 4.0`. -/
theorem ditch_correction_meets_minimum_witness :
    (0 : ℝ) < 1.5 ∧ (0 : ℝ) < 0.5 ∧ (0 : ℝ) < 1.65 ∧ (0 : ℝ) < 4
    ∧ ∃ v sa l,
      Watershaper.calculate_infiltration_ditch 1.5 0.5 1.65 4 50 = Except.ok (v, sa, l)
      ∧ (4 : ℝ) ≤ sa
      ∧ v = (Watershaper.base_width 1.5 + 1.5) / 2 * 0.5 * l
      ∧ (l = Watershaper.initial_length 1.5 0.5 1.65
        ∨ l = Watershaper.initial_length 1.5 0.5 1.65 *
            ((4 : ℝ) / Watershaper.calculate_surface_area 1.5 0.5
              (Watershaper.initial_length 1.5 0.5 1.65))) :=
  ⟨by norm_num, by norm_num, by norm_num, by norm_num,
    ditch_correction_meets_minimum 1.5 0.5 1.65 4 50
      (by norm_num) (by norm_num) (by norm_num) (by norm_num)⟩

/-- Helper: with both minima zero and positive width and depth, the ditch
solver returns the all-zero triple: initial length `0/denominator = 0`,
realized surface area `0`, no correction (since `0 < 0` fails), final
volume and surface area both `0`. -/
theorem Watershaper.ditch_zero_requirements (width depth roof_area : ℝ)
    (hw : 0 < width) (hd : 0 < depth) :
    Watershaper.calculate_infiltration_ditch width depth 0 0 roof_area
      = Except.ok (0, 0, 0) := by
  have hden := Watershaper.denom_pos width depth hw hd
  have hl0 : Watershaper.initial_length width depth 0 = 0 := by
    simp [Watershaper.initial_length]
  have hcsa : Watershaper.calculate_surface_area width depth 0 = 0 := by
    simp [Watershaper.calculate_surface_area]
  simp only [Watershaper.calculate_infiltration_ditch, hl0, hcsa]
  rw [if_neg (ne_of_gt hden), if_neg (lt_irrefl (0 : ℝ))]
  simp [Watershaper.ditch_result, hcsa]

/-- Claim C4, counterexample: at `width = 1.5, depth = 0.5` with both minima
zero, the ditch solver returns length `0`, so no strictly positive length is
returned. -/
theorem ditch_zero_requirements_length_not_positive :
    Watershaper.calculate_infiltration_ditch 1.5 0.5 0 0 50 = Except.ok (0, 0, 0)
    ∧ ¬ ∃ v sa l,
        Watershaper.calculate_infiltration_ditch 1.5 0.5 0 0 50 = Except.ok (v, sa, l)
        ∧ 0 < l := by
  have h := Watershaper.ditch_zero_requirements 1.5 0.5 50 (by norm_num) (by norm_num)
  refine ⟨h, ?_⟩
  rintro ⟨v, sa, l, hok, hl⟩
  rw [h] at hok
  simp only [Except.ok.injEq, Prod.mk.injEq] at hok
  obtain ⟨-, -, h3⟩ := hok
  rw [← h3] at hl
  exact lt_irrefl 0 hl

/-- Claim C4 (amended): with both minima zero and positive width and depth,
the ditch solver does not error and returns the zero-length (and zero
volume, zero surface area) result, not a strictly positive length. -/
theorem ditch_zero_requirements_returns_zero_length
    (width depth roof_area : ℝ) (hw : 0 < width) (hd : 0 < depth) :
    Watershaper.calculate_infiltration_ditch width depth 0 0 roof_area
      = Except.ok (0, 0, 0) :=
  Watershaper.ditch_zero_requirements width depth roof_area hw hd

/-- Witness for `ditch_zero_requirements_returns_zero_length` at
`width = 1.5, depth = 0.5`. -/
theorem ditch_zero_requirements_returns_zero_length_witness :
    (0 : ℝ) < 1.5 ∧ (0 : ℝ) < 0.5
    ∧ Watershaper.calculate_infiltration_ditch 1.5 0.5 0 0 50 = Except.ok (0, 0, 0) :=
  ⟨by norm_num, by norm_num,
    ditch_zero_requirements_returns_zero_length 1.5 0.5 50 (by norm_num) (by norm_num)⟩

/-- Claim C3: at `width = 1.5, depth = 0.5, minVolume = 0,
minSurfaceArea = 4` the realized surface area at the initial length is `0`,
and the correction step divides by it: the Python source raises an uncaught
`ZeroDivisionError` (modelled as `Except.error`), rather than returning a
`DegenerateGeometry` failure outcome — no such outcome exists in the code. -/
theorem ditch_zero_division_on_zero_surface_area :
    Watershaper.calculate_infiltration_ditch 1.5 0.5 0 4 50
      = Except.error PyExn.zeroDivisionError := by
  have hden : ((1.5 : ℝ) * 0.5 + 1.5) / 2 * 0.5 ≠ 0 := by norm_num
  have hl0 : Watershaper.initial_length 1.5 0.5 0 = 0 := by
    simp [Watershaper.initial_length]
  have hcsa : Watershaper.calculate_surface_area 1.5 0.5 0 = 0 := by
    simp [Watershaper.calculate_surface_area]
  simp only [Watershaper.calculate_infiltration_ditch, hl0, hcsa]
  rw [if_neg hden, if_pos (by norm_num : (0 : ℝ) < 4), if_pos trivial]
